import Mathlib

/-
Verification of the dl-fldigi Debian packaging pipeline (debian.py).

The script is a sequential build orchestrator.  Its observable behaviour is
determined by the resolved command-line options together with the outcomes of
the external operations it performs (spawned commands, filesystem calls, glob
results, captured command output).  We embed the script shallowly: every
operation whose outcome the script merely consumes (a subprocess exit status,
a glob listing, the text on a pipe, the result of os.path.realpath) is an
input field of an explicit environment record, and each Python function of the
Builder class becomes a total Lean function of the options and that
environment.  Fallible steps return Except values mirroring the Python
exceptions; the orchestrator (Builder.main) is a function from the full
environment to a result record capturing the exit status, which stages ran,
and the final state of the working directory.

String processing is embedded at the level of the underlying character lists
so that every definition evaluates by kernel reduction on concrete inputs.
-/

namespace Debian

/-- Error classes of the script.  Python raises plain exceptions; we separate
them by origin: `configError` is the path-charset rejection in
setup_build_dir, `externalTool` is the nonzero-exit exception raised by
Builder.cmd, `artifactMismatch` is the failure of an assert requiring a glob
to produce exactly one match (the AssertionError at the dist-archive glob and
at the deb glob), `assertFailed` is any other failed assert, `indexError` is
the IndexError from indexing an empty token list, and `osError` is a failure
of a filesystem call (stat, rmtree, mkdir, copy, read, write). -/
inductive Err
  | configError
  | externalTool
  | artifactMismatch
  | assertFailed
  | indexError
  | osError
  deriving DecidableEq, Repr

/-- A completed filesystem mutation performed by setup_build_dir. -/
inductive FsOp
  | removeTree (p : String)
  | mkdir (p : String)
  deriving DecidableEq, Repr

/-- Resolved command-line options of the script (Builder.get_options).
`distro = ""` models the unset -n option (optparse default None; the script
only tests its truthiness, under which None and "" agree).  `commit = none`
models an absent second positional argument. -/
structure Options where
  directory : String
  quiet : Bool
  verbose : Bool
  output : String
  get_src : Bool
  make_jobs : Option String
  distro : String
  source : String
  commit : Option String

/-- Python truthiness of an optional string (None and "" are falsy). -/
def pyTruthyOpt : Option String → Bool
  | none => false
  | some s => !s.data.isEmpty

/-- The character class of the path regex in setup_build_dir: ASCII letters,
digits, underscore, hyphen and slash. -/
def allowedChar (c : Char) : Bool :=
  ('a' ≤ c && c ≤ 'z') || ('A' ≤ c && c ≤ 'Z') || ('0' ≤ c && c ≤ '9') ||
  c == '_' || c == '-' || c == '/'

/-- Embeds the test that re.match of the anchored pattern (caret, one or
more allowed characters, dollar) against s is not None.
Python re anchors: with default flags the dollar matches at the end of the
string and also immediately before a newline that is the last character, so
the regex accepts a nonempty run of allowed characters optionally followed by
one trailing newline. -/
def reMatchPath (s : String) : Bool :=
  (!s.data.isEmpty && s.data.all allowedChar) ||
  (match s.data.getLast? with
   | some c =>
       c == '\x0a' && !s.data.dropLast.isEmpty && s.data.dropLast.all allowedChar
   | none => false)

/-- Whitespace characters stripped and split on by Python str.strip and
str.split (ASCII subset). -/
def pyWs (c : Char) : Bool :=
  c == ' ' || c == '\t' || c == '\x0a' || c == '\x0d' || c == '\x0b' || c == '\x0c'

/-- Python str.strip(): remove leading and trailing whitespace. -/
def pyStrip (s : String) : String :=
  String.mk (((s.data.dropWhile pyWs).reverse.dropWhile pyWs).reverse)

/-- Helper for pySplitTokens: accumulate the current word (reversed) while
scanning the character list. -/
def splitWsAux : List Char → List Char → List (List Char)
  | [], acc => if acc.isEmpty then [] else [acc.reverse]
  | c :: cs, acc =>
    if pyWs c then
      (if acc.isEmpty then splitWsAux cs [] else acc.reverse :: splitWsAux cs [])
    else splitWsAux cs (c :: acc)

/-- Python str.split() with no arguments: split on runs of whitespace,
producing no empty tokens. -/
def pySplitTokens (s : String) : List String :=
  (splitWsAux s.data []).map String.mk

/-- os.path.basename for the paths handled by the script: the part of the
path after the last slash. -/
def pyBasename (p : String) : String :=
  String.mk ((p.data.reverse.takeWhile (fun c => !(c == '/'))).reverse)

/-- The canonical orig-archive name computed by get_orig_tar:
"dl-fldigi_" + version + ".orig.tar.gz". -/
def orignameOf (version : String) : String :=
  "dl-fldigi_" ++ version ++ ".orig.tar.gz"

/-- Outcome of one shutil.rmtree call on an existing directory: either the
tree is removed, or the call raises with the directory fully or partially
left behind (`stillThere` records whether the top directory still exists). -/
inductive RmResult
  | removed
  | failed (stillThere : Bool)
  deriving DecidableEq, Repr

/-- Environment of one clean_build_dir call: what os.stat reports about the
directory and, when it exists, how shutil.rmtree fares.  `statFail` is an
OSError from stat with an errno other than ENOENT (re-raised by the script);
its field records whether the directory actually exists. -/
inductive CleanEnv
  | absent
  | statFail (dirThere : Bool)
  | found (rm : RmResult)
  deriving DecidableEq, Repr

/-- Result of clean_build_dir: whether it raised and whether the directory
exists afterwards. -/
structure CleanOut where
  raised : Bool
  dirAfter : Bool
  deriving DecidableEq, Repr

/-- Builder.clean_build_dir: stat the location; ENOENT means nothing to do,
any other stat error is re-raised; otherwise rmtree the location. -/
def clean_build_dir : CleanEnv → CleanOut
  | .absent => ⟨false, false⟩
  | .statFail b => ⟨true, b⟩
  | .found .removed => ⟨false, false⟩
  | .found (.failed b) => ⟨true, b⟩

/-- Environment of setup_build_dir: the os.path.realpath resolution function,
the clean_build_dir environment for the pre-existing directory, and whether
os.mkdir succeeds. -/
structure SetupEnv where
  realpath : String → String
  clean : CleanEnv
  mkdirOk : Bool

/-- Result of setup_build_dir: the raised error if any, the list of completed
filesystem mutations, and whether the build directory exists afterwards. -/
structure SetupOut where
  err : Option Err
  ops : List FsOp
  dirAfter : Bool
  deriving DecidableEq, Repr

/-- Builder.setup_build_dir: resolve the directory option with realpath,
reject the resolved path unless the anchored charset regex matches, then
clean any pre-existing directory and mkdir a fresh one.  `pre` is whether the
directory existed on entry (used only for the state reported on paths that
fail before touching the filesystem). -/
def setup_build_dir (opts : Options) (env : SetupEnv) (pre : Bool) : SetupOut :=
  let location := env.realpath opts.directory
  if reMatchPath location then
    match env.clean with
    | .absent =>
        if env.mkdirOk then ⟨none, [.mkdir location], true⟩
        else ⟨some .osError, [], false⟩
    | .statFail b => ⟨some .osError, [], b⟩
    | .found .removed =>
        if env.mkdirOk then ⟨none, [.removeTree location, .mkdir location], true⟩
        else ⟨some .osError, [.removeTree location], false⟩
    | .found (.failed b) => ⟨some .osError, [], b⟩
  else ⟨some .configError, [], pre⟩

/-- Builder.cmd_output: run the command with stdout redirected to a pipe
(raising externalTool when it exits nonzero, as Builder.cmd does), then
return read().strip() — the whole captured output with surrounding
whitespace removed.  `cmdOk` is the spawned command's success, `out` the
bytes it wrote to stdout. -/
def cmd_output (cmdOk : Bool) (out : String) : Except Err String :=
  if cmdOk then .ok (pyStrip out) else .error .externalTool

/-- The first line of a stream, trimmed.  Modelled from the spec: the
captureOneLine variant "captures the first line of standard output ... and
returns it trimmed of surrounding whitespace".  Used only to compare the
specified behaviour with cmd_output. -/
def specFirstLineTrimmed (out : String) : String :=
  pyStrip (String.mk (out.data.takeWhile (fun c => !(c == '\x0a'))))

/-- Environment of get_orig_tar: outcomes of the seven spawned commands, the
dist-archive glob listing, the captured git-log output, and the outcomes of
the final copy and rmtree. -/
structure AcquireEnv where
  cloneOk : Bool
  checkoutOk : Bool
  subInitOk : Bool
  subUpdateOk : Bool
  autoreconfOk : Bool
  configureOk : Bool
  makeDistOk : Bool
  globResult : List String
  logCmdOk : Bool
  logOutput : String
  copyOk : Bool
  rmTmpOk : Bool

/-- The version slice of get_orig_tar: the basename of the dist archive with
the fixed project-name prefix and the .tar.gz suffix removed (the Python
slice distname from position 10 to position -7). -/
def versionOfDistname (distname : String) : String :=
  String.mk (((distname.data.drop "dl-fldigi-".data.length).reverse.drop
    ".tar.gz".data.length).reverse)

/-- Builder.get_orig_tar: clone, optional checkout, submodule init and
update, autoreconf, configure, make dist; glob for dl-fldigi-*.tar.gz
(exactly one match asserted), parse the version from the basename between the
fixed prefix and suffix (both asserted), capture one git-log line, take its
first whitespace token as the commit hash (length 7 asserted), then copy the
archive to its canonical orig name and discard the clone.  Returns
(version, shortHash) on success. -/
def get_orig_tar (opts : Options) (env : AcquireEnv) : Except Err (String × String) :=
  if !env.cloneOk then .error .externalTool
  else if pyTruthyOpt opts.commit && !env.checkoutOk then .error .externalTool
  else if !env.subInitOk then .error .externalTool
  else if !env.subUpdateOk then .error .externalTool
  else if !env.autoreconfOk then .error .externalTool
  else if !env.configureOk then .error .externalTool
  else if !env.makeDistOk then .error .externalTool
  else
    match env.globResult with
    | [m] =>
      if !("dl-fldigi-".data.isPrefixOf (pyBasename m).data) then .error .assertFailed
      else if !(".tar.gz".data.isSuffixOf (pyBasename m).data) then .error .assertFailed
      else if !env.logCmdOk then .error .externalTool
      else
        match pySplitTokens (pyStrip env.logOutput) with
        | [] => .error .indexError
        | g :: _ =>
          if g.length = 7 then
            if !env.copyOk then .error .osError
            else if !env.rmTmpOk then .error .osError
            else .ok (versionOfDistname (pyBasename m), g)
          else .error .assertFailed
    | _ => .error .artifactMismatch

/-- All acquisition commands before the dist-archive glob succeed: clone,
the checkout when a commit was given, both submodule commands, autoreconf,
configure, and make dist. -/
def acquireCmdsOk (opts : Options) (env : AcquireEnv) : Bool :=
  env.cloneOk && !(pyTruthyOpt opts.commit && !env.checkoutOk) && env.subInitOk &&
  env.subUpdateOk && env.autoreconfOk && env.configureOk && env.makeDistOk

/-- One piece of the changelog template, as parsed by Python str.format: a
literal chunk or one of the four replacement fields used by the script. -/
inductive TItem
  | lit (s : String)
  | version
  | distro
  | commit
  | date
  deriving DecidableEq, Repr

/-- Value of one template piece under the four bindings passed by
add_debian_dir. -/
def renderItem (v d c dt : String) : TItem → String
  | .lit s => s
  | .version => v
  | .distro => d
  | .commit => c
  | .date => dt

/-- changelog.format(version=v, distro=d, commit=c, date=dt): every
replacement field is substituted, the literal chunks are kept. -/
def renderTemplate (v d c dt : String) (ts : List TItem) : String :=
  String.join (ts.map (renderItem v d c dt))

/-- Environment of add_debian_dir: outcomes of mkdir, tar extraction,
copytree and the changelog read and write; the parsed changelog template; the
outputs of the two lsb_release queries; and the email.utils.formatdate()
result (an RFC-2822 timestamp produced by the standard library). -/
structure InjectEnv where
  mkdirOk : Bool
  tarOk : Bool
  copytreeOk : Bool
  readOk : Bool
  template : List TItem
  lsbSiOk : Bool
  lsbSiOut : String
  lsbScOk : Bool
  lsbScOut : String
  date : String
  writeOk : Bool

/-- Builder.default_distro: "unstable" when lsb_release -si (captured and
stripped, then stripped again) is "Debian", otherwise the stripped
lsb_release -sc codename. -/
def default_distro (env : InjectEnv) : Except Err String :=
  match cmd_output env.lsbSiOk env.lsbSiOut with
  | .error e => .error e
  | .ok si =>
    if pyStrip si = "Debian" then .ok "unstable"
    else
      match cmd_output env.lsbScOk env.lsbScOut with
      | .error e => .error e
      | .ok sc => .ok (pyStrip sc)

/-- Builder.add_debian_dir: mkdir the versioned source directory, extract the
orig archive into it, copytree the static debian directory, read the
changelog, resolve the distro (explicit option when truthy, else
default_distro), substitute the four fields, and overwrite the changelog with
the substituted text in one write.  Returns the written changelog content. -/
def add_debian_dir (opts : Options) (env : InjectEnv) (version git : String) :
    Except Err String :=
  if !env.mkdirOk then .error .osError
  else if !env.tarOk then .error .externalTool
  else if !env.copytreeOk then .error .osError
  else if !env.readOk then .error .osError
  else
    match (if !opts.distro.data.isEmpty then .ok opts.distro else default_distro env) with
    | .error e => .error e
    | .ok distro =>
      let content := renderTemplate (version ++ "-" ++ git) distro git env.date env.template
      if !env.writeOk then .error .osError
      else .ok content

/-- Builder.build: one debuild invocation ("-uc -us", plus -j and -S when the
options ask for them); raises externalTool on nonzero exit. -/
def build (buildOk : Bool) : Except Err Unit :=
  if buildOk then .ok () else .error .externalTool

/-- Environment of get_files: the deb glob listing (binary mode) and the
outcome of the copies to the output directory. -/
structure CollectEnv where
  debGlob : List String
  copyOk : Bool

/-- Builder.get_files: in source mode, name the three source-package files
from the dl-fldigi_version-git prefix, assert the first equals the orig name
recorded by get_orig_tar, and copy all three; in binary mode glob for
prefix_*.deb (exactly one match asserted) and copy it.  Returns the copied
file names. -/
def get_files (opts : Options) (env : CollectEnv) (version git origname : String) :
    Except Err (List String) :=
  let pfx := "dl-fldigi_" ++ version ++ "-" ++ git
  if opts.get_src then
    let files := [pfx ++ ".orig.tar.gz", pfx ++ ".debian.tar.gz", pfx ++ ".dsc"]
    if files.headD "" = origname then
      if !env.copyOk then .error .osError else .ok files
    else .error .assertFailed
  else
    match env.debGlob with
    | [deb] => if !env.copyOk then .error .osError else .ok [deb]
    | _ => .error .artifactMismatch

/-- Full environment of one run of Builder.main: whether opening /dev/null
succeeds, whether the build directory pre-exists, the environments of the
five stages, whether null.close() in the cleanup block succeeds, and the
clean_build_dir environment of the final cleanup. -/
structure MainEnv where
  nullOk : Bool
  preDir : Bool
  setup : SetupEnv
  acquire : AcquireEnv
  inject : InjectEnv
  buildOk : Bool
  collect : CollectEnv
  closeOk : Bool
  finalClean : CleanEnv

/-- Outcome of the middle try block of Builder.main (acquisition, injection,
build, collection): whether it raised, which stages started, the error
raised by get_orig_tar when it failed, and the files copied on success. -/
structure PhaseOut where
  raised : Bool
  ranInject : Bool
  ranBuild : Bool
  ranCollect : Bool
  acquireErr : Option Err
  copied : List String
  deriving DecidableEq, Repr

/-- The middle try block of Builder.main: run the four stages in order,
stopping at the first raise. -/
def buildPhase (opts : Options) (env : MainEnv) : PhaseOut :=
  match get_orig_tar opts env.acquire with
  | .error e => ⟨true, false, false, false, some e, []⟩
  | .ok (v, g) =>
    match add_debian_dir opts env.inject v g with
    | .error _ => ⟨true, true, false, false, none, []⟩
    | .ok _ =>
      match build env.buildOk with
      | .error _ => ⟨true, true, true, false, none, []⟩
      | .ok _ =>
        match get_files opts env.collect v g (orignameOf v) with
        | .error _ => ⟨true, true, true, true, none, []⟩
        | .ok files => ⟨false, true, true, true, none, files⟩

/-- Outcome of the final try block of Builder.main: whether it raised, how
many times clean_build_dir was invoked there, and whether the build
directory exists afterwards. -/
structure CleanPhaseOut where
  raised : Bool
  calls : Nat
  dirAfter : Bool
  deriving DecidableEq, Repr

/-- The final try block of Builder.main: close the null sink, then
clean_build_dir; any exception is caught and logged. -/
def cleanupPhase (closeOk : Bool) (ce : CleanEnv) (dirBefore : Bool) : CleanPhaseOut :=
  if closeOk then
    let c := clean_build_dir ce
    ⟨c.raised, 1, c.dirAfter⟩
  else ⟨true, 0, dirBefore⟩

/-- Observable outcome of one run of Builder.main. -/
structure MainResult where
  exitCode : Nat
  setupRaised : Bool
  buildPhaseRaised : Bool
  cleanupRaised : Bool
  ranInject : Bool
  ranBuild : Bool
  ranCollect : Bool
  cleanupPhaseRan : Bool
  cleanCalls : Nat
  dirExists : Bool
  acquireErr : Option Err
  deriving DecidableEq, Repr

/-- Builder.main: setup errors exit 1 immediately; errors of the middle
block are caught and recorded in delay_error; the cleanup block always runs
next and its own exception is caught and only logged; finally the process
exits 1 exactly when delay_error was set. -/
def main (opts : Options) (env : MainEnv) : MainResult :=
  if !env.nullOk then
    { exitCode := 1, setupRaised := true, buildPhaseRaised := false,
      cleanupRaised := false, ranInject := false, ranBuild := false,
      ranCollect := false, cleanupPhaseRan := false, cleanCalls := 0,
      dirExists := env.preDir, acquireErr := none }
  else
    let s := setup_build_dir opts env.setup env.preDir
    if s.err.isSome then
      { exitCode := 1, setupRaised := true, buildPhaseRaised := false,
        cleanupRaised := false, ranInject := false, ranBuild := false,
        ranCollect := false, cleanupPhaseRan := false, cleanCalls := 0,
        dirExists := s.dirAfter, acquireErr := none }
    else
      let p := buildPhase opts env
      let c := cleanupPhase env.closeOk env.finalClean true
      { exitCode := if p.raised then 1 else 0,
        setupRaised := false, buildPhaseRaised := p.raised,
        cleanupRaised := c.raised, ranInject := p.ranInject,
        ranBuild := p.ranBuild, ranCollect := p.ranCollect,
        cleanupPhaseRan := true, cleanCalls := c.calls,
        dirExists := c.dirAfter, acquireErr := p.acquireErr }

/-! Concrete run fixtures used by counterexamples and witnesses. -/

/-- Options of a plain binary-mode run with all defaults. -/
def optsBin : Options :=
  { directory := "debian_build", quiet := false, verbose := false, output := ".",
    get_src := false, make_jobs := none, distro := "",
    source := "git://example/dl-fldigi", commit := none }

/-- The same run with the source-only flag set. -/
def optsSrc : Options :=
  { optsBin with get_src := true }

/-- A setup environment in which everything succeeds. -/
def setupOkEnv : SetupEnv :=
  { realpath := fun _ => "/home/builder/debian_build", clean := .absent, mkdirOk := true }

/-- An acquisition environment in which everything succeeds, with version
1.2.3 and commit abcdef1. -/
def acquireOkEnv : AcquireEnv :=
  { cloneOk := true, checkoutOk := true, subInitOk := true, subUpdateOk := true,
    autoreconfOk := true, configureOk := true, makeDistOk := true,
    globResult := ["/home/builder/debian_build/git-tmp/dl-fldigi-1.2.3.tar.gz"],
    logCmdOk := true, logOutput := "abcdef1 Fix serial port handling\x0a",
    copyOk := true, rmTmpOk := true }

/-- An injection environment in which everything succeeds, on an Ubuntu
host, with a four-field changelog template. -/
def injectOkEnv : InjectEnv :=
  { mkdirOk := true, tarOk := true, copytreeOk := true, readOk := true,
    template := [TItem.lit "dl-fldigi (", TItem.version, TItem.lit ") ", TItem.distro,
                 TItem.lit "; urgency=low -- ", TItem.commit, TItem.lit " ", TItem.date],
    lsbSiOk := true, lsbSiOut := "Ubuntu\x0a", lsbScOk := true, lsbScOut := "jammy\x0a",
    date := "Sun, 12 Oct 2025 12:00:00 -0000", writeOk := true }

/-- The same injection environment on a host whose distributor identity is
Debian (with padding whitespace around the captured output). -/
def injectDebianEnv : InjectEnv :=
  { injectOkEnv with lsbSiOut := " Debian \x0a" }

/-- A collection environment holding exactly one deb. -/
def collectOkEnv : CollectEnv :=
  { debGlob := ["/home/builder/debian_build/dl-fldigi_1.2.3-abcdef1_amd64.deb"],
    copyOk := true }

/-- A full run environment in which every stage succeeds. -/
def envAllOk : MainEnv :=
  { nullOk := true, preDir := false, setup := setupOkEnv, acquire := acquireOkEnv,
    inject := injectOkEnv, buildOk := true, collect := collectOkEnv, closeOk := true,
    finalClean := .found .removed }

/-- A run in which every stage succeeds but the final rmtree raises, leaving
the directory behind. -/
def envCleanupFails : MainEnv :=
  { envAllOk with finalClean := .found (.failed true) }

/-- An acquisition environment whose dist-archive glob produced an archive
with nothing between the fixed prefix and suffix. -/
def acquireEmptyVersionEnv : AcquireEnv :=
  { acquireOkEnv with
    globResult := ["/home/builder/debian_build/git-tmp/dl-fldigi-.tar.gz"] }

/-- An acquisition environment whose dist-archive glob matched nothing. -/
def acquireGlobEmptyEnv : AcquireEnv :=
  { acquireOkEnv with globResult := [] }

/-- A run whose dist-archive glob matched nothing and whose final rmtree
raises, leaving the directory behind. -/
def envGlobEmptyCleanupFails : MainEnv :=
  { envAllOk with acquire := acquireGlobEmptyEnv, finalClean := .found (.failed true) }

/-- A run whose dist-archive glob matched nothing and whose cleanup
succeeds. -/
def envGlobEmptyCleanOk : MainEnv :=
  { envAllOk with acquire := acquireGlobEmptyEnv }

/-- A run whose captured git-log line starts with a three-character token. -/
def envShortToken : MainEnv :=
  { envAllOk with acquire := { acquireOkEnv with logOutput := "abc bad format\x0a" } }

/-- Options pointing the working directory at a short relative name. -/
def opts5 : Options :=
  { optsBin with directory := "x" }

/-- A setup environment whose path resolution yields an allowed-charset name
followed by one trailing newline. -/
def envTrailingNl : SetupEnv :=
  { realpath := fun _ => "a\x0a", clean := .absent, mkdirOk := true }

/-- A setup environment whose path resolution yields a name with an interior
space. -/
def envBadPath : SetupEnv :=
  { realpath := fun _ => "bad path", clean := .absent, mkdirOk := true }

/-- Options naming a relative, symlinked working directory. -/
def opts10 : Options :=
  { optsBin with directory := "d" }

/-- A setup environment resolving the option to an absolute path with one
trailing newline (for example through a symlink). -/
def envSymlinkNl : SetupEnv :=
  { realpath := fun _ => "/tmp/d\x0a", clean := .absent, mkdirOk := true }

/-- Options naming the working directory through a relative path. -/
def optsRel : Options :=
  { optsBin with directory := "rel/link" }

/-- A setup environment resolving every supplied path to the same absolute
directory. -/
def envSharedResolve : SetupEnv :=
  { realpath := fun _ => "/abs/dir", clean := .absent, mkdirOk := true }

/-! Claim C2. -/

/-- Claim C2 (code_bug evidence): in source-only mode the consistency assert
can never pass.  For every version and hash, the first computed artifact
name, dl-fldigi_version-hash.orig.tar.gz, differs from the canonical orig
name dl-fldigi_version.orig.tar.gz recorded by acquisition (even for the
empty hash the strings differ by the hyphen), so get_files always raises the
assertion failure and copies nothing: the three source files are never
copied. -/
theorem c2_source_assert_never_passes
    (opts : Options) (env : CollectEnv) (version git : String)
    (hs : opts.get_src = true) :
    get_files opts env version git (orignameOf version) = Except.error Err.assertFailed := by
  have hne : (("dl-fldigi_" ++ version ++ "-" ++ git) ++ ".orig.tar.gz" : String) ≠
      orignameOf version := by
    intro h
    have h2 := congrArg String.length h
    rw [orignameOf] at h2
    simp only [String.length_append] at h2
    have hb : ("-" : String).length = 1 := rfl
    omega
  simp [get_files, hs, hne]

/-- Witness for c2_source_assert_never_passes at the concrete run of the
examples in the spec. -/
theorem c2_witness :
    get_files optsSrc collectOkEnv "1.2.3" "abcdef1" (orignameOf "1.2.3") =
      Except.error Err.assertFailed :=
  c2_source_assert_never_passes optsSrc collectOkEnv "1.2.3" "abcdef1" rfl

/-! Claim C7. -/

/-- Claim C7: when the injection stage reaches the changelog rewrite, the
written content is exactly the template with the version field bound to
version-hash, the commit field to the hash, the date field to the
formatdate() timestamp, and the distro field to the explicit option when it
is truthy, to "unstable" when the host distributor identity is Debian, and
to the host release codename otherwise; the substituted text is the entire
written file content (the model write is a single whole-file write). -/
theorem c7_changelog_substitution
    (opts : Options) (env : InjectEnv) (v g : String)
    (h1 : env.mkdirOk = true) (h2 : env.tarOk = true) (h3 : env.copytreeOk = true)
    (h4 : env.readOk = true) (h5 : env.writeOk = true) :
    (opts.distro.data.isEmpty = false →
      add_debian_dir opts env v g =
        Except.ok (renderTemplate (v ++ "-" ++ g) opts.distro g env.date env.template)) ∧
    (opts.distro.data.isEmpty = true → env.lsbSiOk = true →
      pyStrip (pyStrip env.lsbSiOut) = "Debian" →
      add_debian_dir opts env v g =
        Except.ok (renderTemplate (v ++ "-" ++ g) "unstable" g env.date env.template)) ∧
    (opts.distro.data.isEmpty = true → env.lsbSiOk = true →
      pyStrip (pyStrip env.lsbSiOut) ≠ "Debian" → env.lsbScOk = true →
      add_debian_dir opts env v g =
        Except.ok (renderTemplate (v ++ "-" ++ g) (pyStrip (pyStrip env.lsbScOut)) g
          env.date env.template)) := by
  refine ⟨?_, ?_, ?_⟩
  · intro hd
    simp [add_debian_dir, h1, h2, h3, h4, h5, hd]
  · intro hd hsi hdeb
    simp [add_debian_dir, default_distro, cmd_output, h1, h2, h3, h4, h5, hd, hsi, hdeb]
  · intro hd hsi hdeb hsc
    simp [add_debian_dir, default_distro, cmd_output, h1, h2, h3, h4, h5, hd, hsi, hdeb, hsc]

/-- Witness for c7_changelog_substitution: on a Debian host with no explicit
distro option the changelog written for version 1.2.3 and commit abcdef1 is
the fully substituted template. -/
theorem c7_witness :
    add_debian_dir optsBin injectDebianEnv "1.2.3" "abcdef1" =
      Except.ok
        "dl-fldigi (1.2.3-abcdef1) unstable; urgency=low -- abcdef1 Sun, 12 Oct 2025 12:00:00 -0000" := by
  rw [(c7_changelog_substitution optsBin injectDebianEnv "1.2.3" "abcdef1"
        rfl rfl rfl rfl rfl).2.1 rfl rfl (by decide)]
  rfl

/-! Claim C8. -/

/-- Claim C8 counterexample: for a spawned command whose standard output has
two lines the capturing variant returns the whole stripped output, not the
first line. -/
theorem c8_counterexample :
    cmd_output true "a\x0ab" = Except.ok "a\x0ab" ∧
    specFirstLineTrimmed "a\x0ab" = "a" ∧
    ("a\x0ab" : String) ≠ "a" :=
  ⟨rfl, rfl, by decide⟩

/-- Claim C8 amended: the capturing run variant returns the entire captured
standard output trimmed of surrounding whitespace (and raises on nonzero
exit); when the output contains no newline at all this coincides with the
trimmed first line of the output. -/
theorem c8_amended (cmdOk : Bool) (out : String) :
    (cmdOk = true → cmd_output cmdOk out = Except.ok (pyStrip out)) ∧
    (cmdOk = false → cmd_output cmdOk out = Except.error Err.externalTool) ∧
    (out.data.all (fun c => !(c == '\x0a')) = true →
      cmd_output true out = Except.ok (specFirstLineTrimmed out)) := by
  refine ⟨?_, ?_, ?_⟩
  · intro h; simp [cmd_output, h]
  · intro h; simp [cmd_output, h]
  · intro h
    have ht : out.data.takeWhile (fun c => !(c == '\x0a')) = out.data := by
      rw [List.all_eq_true] at h
      exact List.takeWhile_eq_self_iff.mpr h
    simp [cmd_output, specFirstLineTrimmed, ht]

/-- Witness for c8_amended at a one-line padded output. -/
theorem c8_witness : cmd_output true " abc \x0a" = Except.ok "abc" :=
  ((c8_amended true " abc \x0a").1 rfl).trans (by rfl)

/-! Claim C9. -/

/-- Claim C9 counterexample: acquisition accepts the archive name
dl-fldigi-.tar.gz, whose derived version string is empty, without raising:
no non-emptiness check exists. -/
theorem c9_counterexample :
    get_orig_tar optsBin acquireEmptyVersionEnv = Except.ok ("", "abcdef1") := rfl

/-- Claim C9 amended: every version string acquisition returns is obtained
by stripping the fixed dl-fldigi- project prefix and the .tar.gz suffix from
the basename of the unique dist-archive glob match, but acquisition performs
no non-emptiness check: there are accepting runs whose version is the empty
string. -/
theorem c9_amended :
    (∀ (opts : Options) (env : AcquireEnv) (v g : String),
      get_orig_tar opts env = Except.ok (v, g) →
      ∃ m, env.globResult = [m] ∧ v = versionOfDistname (pyBasename m)) ∧
    (∃ (opts : Options) (env : AcquireEnv) (g : String),
      get_orig_tar opts env = Except.ok ("", g)) := by
  constructor
  · intro opts env v g h
    unfold get_orig_tar at h
    by_cases h1 : (!env.cloneOk) = true
    · rw [if_pos h1] at h; cases h
    rw [if_neg h1] at h
    by_cases h2 : (pyTruthyOpt opts.commit && !env.checkoutOk) = true
    · rw [if_pos h2] at h; cases h
    rw [if_neg h2] at h
    by_cases h3 : (!env.subInitOk) = true
    · rw [if_pos h3] at h; cases h
    rw [if_neg h3] at h
    by_cases h4 : (!env.subUpdateOk) = true
    · rw [if_pos h4] at h; cases h
    rw [if_neg h4] at h
    by_cases h5 : (!env.autoreconfOk) = true
    · rw [if_pos h5] at h; cases h
    rw [if_neg h5] at h
    by_cases h6 : (!env.configureOk) = true
    · rw [if_pos h6] at h; cases h
    rw [if_neg h6] at h
    by_cases h7 : (!env.makeDistOk) = true
    · rw [if_pos h7] at h; cases h
    rw [if_neg h7] at h
    split at h
    · split at h; · cases h
      split at h; · cases h
      split at h; · cases h
      split at h
      · cases h
      · split at h
        · split at h; · cases h
          split at h; · cases h
          cases h
          exact ⟨_, by assumption, rfl⟩
        · cases h
    · cases h
  · exact ⟨optsBin, acquireEmptyVersionEnv, "abcdef1", rfl⟩

/-- Witness for c9_amended at the all-success acquisition run. -/
theorem c9_witness :
    ∃ m, acquireOkEnv.globResult = [m] ∧
      ("1.2.3" : String) = versionOfDistname (pyBasename m) :=
  c9_amended.1 optsBin acquireOkEnv "1.2.3" "abcdef1" rfl

/-! Shared helper lemmas about the cleanup step and the orchestrator. -/

/-- When clean_build_dir does not raise, the directory is gone afterwards. -/
theorem clean_build_dir_ok_removes (ce : CleanEnv) :
    (clean_build_dir ce).raised = false → (clean_build_dir ce).dirAfter = false := by
  cases ce with
  | absent => intro _; rfl
  | statFail b => intro h; exact absurd h (by simp [clean_build_dir])
  | found rm => cases rm <;> simp [clean_build_dir]

/-- Under successful pre-glob commands, a dist-archive glob with zero or two
or more matches makes get_orig_tar raise the artifact-mismatch assertion. -/
theorem get_orig_tar_glob_mismatch (opts : Options) (env : AcquireEnv)
    (hc : acquireCmdsOk opts env = true) (hg : env.globResult.length ≠ 1) :
    get_orig_tar opts env = Except.error Err.artifactMismatch := by
  simp only [acquireCmdsOk, Bool.and_eq_true, Bool.not_eq_true'] at hc
  obtain ⟨⟨⟨⟨⟨⟨c1, c2⟩, c3⟩, c4⟩, c5⟩, c6⟩, c7⟩ := hc
  unfold get_orig_tar
  rw [if_neg (by simp [c1])]
  rw [if_neg (by simp [c2])]
  rw [if_neg (by simp [c3])]
  rw [if_neg (by simp [c4])]
  rw [if_neg (by simp [c5])]
  rw [if_neg (by simp [c6])]
  rw [if_neg (by simp [c7])]
  rcases hgr : env.globResult with _ | ⟨a, _ | ⟨b, t⟩⟩
  · rfl
  · rw [hgr] at hg; simp at hg
  · rfl

/-- The regex acceptance of setup_build_dir, characterised at the character
level: a nonempty all-allowed string, or an all-allowed nonempty string
followed by exactly one newline. -/
theorem reMatchPath_iff (s : String) :
    reMatchPath s = true ↔
      ((s.data ≠ [] ∧ s.data.all allowedChar = true) ∨
       (s.data.getLast? = some '\x0a' ∧ s.data.dropLast ≠ [] ∧
        s.data.dropLast.all allowedChar = true)) := by
  unfold reMatchPath
  cases hlast : s.data.getLast? with
  | none => simp [hlast]
  | some c =>
    by_cases hc : c = '\x0a'
    · subst hc; simp [hlast]
    · simp [hlast, hc]

/-- A resolved path accepted by the regex is never rejected on charset
grounds (the later steps can only raise filesystem errors). -/
theorem setup_charset_pass (opts : Options) (env : SetupEnv) (pre : Bool)
    (hm : reMatchPath (env.realpath opts.directory) = true) :
    (setup_build_dir opts env pre).err ≠ some Err.configError := by
  unfold setup_build_dir
  rw [if_pos hm]
  rcases hcl : env.clean with _ | b | rm
  · cases hmk : env.mkdirOk <;> simp [hcl, hmk]
  · simp [hcl]
  · rcases rm with _ | b <;> cases hmk : env.mkdirOk <;> simp [hcl, hmk]

/-- A resolved path rejected by the regex makes setup fail with the
configuration error before performing any filesystem mutation. -/
theorem setup_charset_fail (opts : Options) (env : SetupEnv) (pre : Bool)
    (hm : reMatchPath (env.realpath opts.directory) = false) :
    (setup_build_dir opts env pre).err = some Err.configError ∧
    (setup_build_dir opts env pre).ops = [] := by
  unfold setup_build_dir
  rw [if_neg (by simp [hm])]
  exact ⟨rfl, rfl⟩

/-! Claim C5. -/

/-- Claim C5 counterexample: the resolved path consisting of an allowed
character followed by a newline contains a disallowed character, yet setup
does not raise the charset error and proceeds to mutate the filesystem,
because the regex dollar anchor also matches before one trailing newline. -/
theorem c5_counterexample :
    ¬ ((∃ c ∈ (envTrailingNl.realpath opts5.directory).data, allowedChar c = false) →
        (setup_build_dir opts5 envTrailingNl false).err = some Err.configError ∧
        (setup_build_dir opts5 envTrailingNl false).ops = []) := by decide

/-- Claim C5 amended: a nonempty resolved path of allowed characters never
fails on charset grounds; a resolved path that is an allowed-charset
nonempty string followed by exactly one trailing newline ALSO passes the
check; every other resolved path (including the empty one) makes setup
raise the configuration error before any removal or creation. -/
theorem c5_amended (opts : Options) (env : SetupEnv) (pre : Bool) :
    (((env.realpath opts.directory).data ≠ [] ∧
        (env.realpath opts.directory).data.all allowedChar = true) →
      (setup_build_dir opts env pre).err ≠ some Err.configError) ∧
    ((∃ c ∈ (env.realpath opts.directory).data, allowedChar c = false) →
      ¬((env.realpath opts.directory).data.getLast? = some '\x0a' ∧
        (env.realpath opts.directory).data.dropLast ≠ [] ∧
        (env.realpath opts.directory).data.dropLast.all allowedChar = true) →
      (setup_build_dir opts env pre).err = some Err.configError ∧
      (setup_build_dir opts env pre).ops = []) ∧
    (((env.realpath opts.directory).data.getLast? = some '\x0a' ∧
      (env.realpath opts.directory).data.dropLast ≠ [] ∧
      (env.realpath opts.directory).data.dropLast.all allowedChar = true) →
      (setup_build_dir opts env pre).err ≠ some Err.configError) ∧
    ((env.realpath opts.directory).data = [] →
      (setup_build_dir opts env pre).err = some Err.configError ∧
      (setup_build_dir opts env pre).ops = []) := by
  refine ⟨?_, ?_, ?_, ?_⟩
  · intro hok
    exact setup_charset_pass opts env pre ((reMatchPath_iff _).mpr (Or.inl hok))
  · rintro ⟨c, hmem, hbad⟩ hnotnl
    refine setup_charset_fail opts env pre ?_
    cases hm : reMatchPath (env.realpath opts.directory) with
    | false => rfl
    | true =>
      rcases (reMatchPath_iff _).mp hm with ⟨_, hall⟩ | hnl
      · exact absurd (List.all_eq_true.mp hall c hmem) (by simp [hbad])
      · exact absurd hnl hnotnl
  · intro hnl
    exact setup_charset_pass opts env pre ((reMatchPath_iff _).mpr (Or.inr hnl))
  · intro hempty
    refine setup_charset_fail opts env pre ?_
    cases hm : reMatchPath (env.realpath opts.directory) with
    | false => rfl
    | true =>
      rcases (reMatchPath_iff _).mp hm with ⟨hne, _⟩ | ⟨hlast, _, _⟩
      · exact absurd hempty hne
      · rw [hempty] at hlast; exact absurd hlast (by simp)

/-- Witness for c5_amended: a resolved path with an interior space is
rejected with the configuration error and no filesystem mutation. -/
theorem c5_witness :
    (setup_build_dir opts5 envBadPath false).err = some Err.configError ∧
    (setup_build_dir opts5 envBadPath false).ops = [] :=
  (c5_amended opts5 envBadPath false).2.1 (by decide) (by decide)

/-! Claim C10. -/

/-- Claim C10 counterexample: with the supplied short option name resolving
through a symlink to an absolute path carrying one trailing newline, setup
passes the charset check although the resolved path contains a disallowed
character, refuting the only-if direction of the claim. -/
theorem c10_counterexample :
    ¬ ((setup_build_dir opts10 envSymlinkNl false).err ≠ some Err.configError →
        (envSymlinkNl.realpath opts10.directory).data.all allowedChar = true) := by decide

/-- Claim C10 amended: the charset validation is applied to the resolved
path returned by realpath, never to the raw option string (two options with
the same resolution behave identically, whatever their own spelling), and
it rejects with the configuration error exactly when the resolved path
fails the anchored regex (a nonempty run of allowed characters optionally
followed by one trailing newline). -/
theorem c10_amended (o1 o2 : Options) (env : SetupEnv) (pre : Bool)
    (h : env.realpath o1.directory = env.realpath o2.directory) :
    setup_build_dir o1 env pre = setup_build_dir o2 env pre ∧
    ((setup_build_dir o1 env pre).err = some Err.configError ↔
      reMatchPath (env.realpath o1.directory) = false) := by
  constructor
  · unfold setup_build_dir
    rw [h]
  · constructor
    · intro he
      cases hm : reMatchPath (env.realpath o1.directory) with
      | false => rfl
      | true => exact absurd he (setup_charset_pass o1 env pre hm)
    · intro hm
      exact (setup_charset_fail o1 env pre hm).1

/-- Witness for c10_amended: a relative option and the default option
resolving to the same absolute directory produce identical setup outcomes,
and the charset rejection is equivalent to the regex failing on the
resolved path. -/
theorem c10_witness :
    setup_build_dir optsRel envSharedResolve false =
      setup_build_dir optsBin envSharedResolve false ∧
    ((setup_build_dir optsRel envSharedResolve false).err = some Err.configError ↔
      reMatchPath (envSharedResolve.realpath optsRel.directory) = false) :=
  c10_amended optsRel optsBin envSharedResolve false rfl

/-! Claim C1. -/

/-- Claim C1 counterexample: a run in which setup and the whole build phase
succeed but the final rmtree raises exits with status 0, so the claimed
equivalence between nonzero exit and a raise in setup, build or cleanup is
false on this run. -/
theorem c1_counterexample :
    ¬ ((main optsBin envCleanupFails).exitCode ≠ 0 ↔
        ((main optsBin envCleanupFails).setupRaised = true ∨
         (main optsBin envCleanupFails).buildPhaseRaised = true ∨
         (main optsBin envCleanupFails).cleanupRaised = true)) := by decide

/-- Claim C1 amended: the exit status is nonzero exactly when the setup
phase or the build phase raised; an exception raised in the cleanup phase is
caught, logged and ignored by the exit status. -/
theorem c1_amended (opts : Options) (env : MainEnv) :
    (main opts env).exitCode ≠ 0 ↔
      ((main opts env).setupRaised = true ∨ (main opts env).buildPhaseRaised = true) := by
  cases hn : env.nullOk with
  | false => simp [main, hn]
  | true =>
    cases hs : (setup_build_dir opts env.setup env.preDir).err with
    | some e => simp [main, hn, hs]
    | none =>
      cases hp : (buildPhase opts env).raised <;> simp [main, hn, hs, hp]

/-- Witness for c1_amended at the all-success run. -/
theorem c1_witness :
    (main optsBin envAllOk).exitCode ≠ 0 ↔
      ((main optsBin envAllOk).setupRaised = true ∨
       (main optsBin envAllOk).buildPhaseRaised = true) :=
  c1_amended optsBin envAllOk

/-! Claim C3. -/

/-- Claim C3 counterexample: in a run whose setup succeeded and whose final
rmtree raises, the working directory still exists after the process exits,
refuting the unconditional removal part of the claim. -/
theorem c3_counterexample :
    ¬ ((main optsBin envCleanupFails).setupRaised = false →
        (main optsBin envCleanupFails).cleanCalls = 1 ∧
        (main optsBin envCleanupFails).dirExists = false) := by decide

/-- Claim C3 amended: after a successful setup the cleanup phase runs
exactly once after the build phase regardless of the build phase outcome
(the one clean_build_dir call of that phase is reached whenever the closing
of the null sink does not itself raise), and the working directory no longer
exists after exit provided the cleanup phase did not raise. -/
theorem c3_amended (opts : Options) (env : MainEnv)
    (h : (main opts env).setupRaised = false) :
    (main opts env).cleanupPhaseRan = true ∧
    (env.closeOk = true → (main opts env).cleanCalls = 1) ∧
    ((main opts env).cleanupRaised = false → (main opts env).dirExists = false) := by
  cases hn : env.nullOk with
  | false => simp [main, hn] at h
  | true =>
    cases hs : (setup_build_dir opts env.setup env.preDir).err with
    | some e => simp [main, hn, hs] at h
    | none =>
      cases hcl : env.closeOk with
      | false => simp [main, hn, hs, cleanupPhase, hcl]
      | true =>
        refine ⟨by simp [main, hn, hs], by simp [main, hn, hs, cleanupPhase, hcl], ?_⟩
        simp only [main, hn, hs, cleanupPhase, hcl]
        simp only [Bool.not_true, Bool.false_eq_true, if_false, Option.isSome_none,
          if_true]
        exact clean_build_dir_ok_removes env.finalClean

/-- Witness for c3_amended at the all-success run. -/
theorem c3_witness :
    (main optsBin envAllOk).cleanupPhaseRan = true ∧
    (envAllOk.closeOk = true → (main optsBin envAllOk).cleanCalls = 1) ∧
    ((main optsBin envAllOk).cleanupRaised = false →
      (main optsBin envAllOk).dirExists = false) :=
  c3_amended optsBin envAllOk (by decide)

/-! Claim C4. -/

/-- Claim C4 counterexample: in a run whose dist-archive glob matched
nothing and whose final rmtree raises, the working directory is not removed
before the failing exit, refuting the unconditional removal part of the
claim (the other parts hold on this run). -/
theorem c4_counterexample :
    ¬ (envGlobEmptyCleanupFails.acquire.globResult.length ≠ 1 →
        ((main optsBin envGlobEmptyCleanupFails).acquireErr = some Err.artifactMismatch ∧
         (main optsBin envGlobEmptyCleanupFails).ranInject = false ∧
         (main optsBin envGlobEmptyCleanupFails).dirExists = false ∧
         (main optsBin envGlobEmptyCleanupFails).exitCode ≠ 0)) := by decide

/-- Claim C4 amended: when setup succeeded, every command before the
dist-archive glob succeeded and the glob yielded zero or two or more
matches, the run fails with the artifact-mismatch error, no later build
stage runs, the cleanup phase still runs, the process exits with status 1,
and the working directory is removed provided the cleanup phase did not
itself raise. -/
theorem c4_amended (opts : Options) (env : MainEnv)
    (hn : env.nullOk = true)
    (hs : (setup_build_dir opts env.setup env.preDir).err = none)
    (hc : acquireCmdsOk opts env.acquire = true)
    (hg : env.acquire.globResult.length ≠ 1) :
    (main opts env).acquireErr = some Err.artifactMismatch ∧
    (main opts env).ranInject = false ∧
    (main opts env).ranBuild = false ∧
    (main opts env).ranCollect = false ∧
    (main opts env).cleanupPhaseRan = true ∧
    (main opts env).exitCode = 1 ∧
    ((main opts env).cleanupRaised = false → (main opts env).dirExists = false) := by
  have hacq := get_orig_tar_glob_mismatch opts env.acquire hc hg
  cases hcl : env.closeOk with
  | false => simp [main, hn, hs, buildPhase, hacq, cleanupPhase, hcl]
  | true =>
    refine ⟨by simp [main, hn, hs, buildPhase, hacq],
            by simp [main, hn, hs, buildPhase, hacq],
            by simp [main, hn, hs, buildPhase, hacq],
            by simp [main, hn, hs, buildPhase, hacq],
            by simp [main, hn, hs],
            by simp [main, hn, hs, buildPhase, hacq],
            ?_⟩
    simp only [main, hn, hs, cleanupPhase, hcl]
    simp only [Bool.not_true, Bool.false_eq_true, if_false, Option.isSome_none, if_true]
    exact clean_build_dir_ok_removes env.finalClean

/-! Claim C6. -/

/-- Claim C6: when the acquisition run reaches the git-log capture (all
earlier commands succeeded, the glob yielded one well-named archive, the log
command succeeded) and the captured line splits into a first whitespace
token g and a remainder: if g is not exactly 7 characters long, acquisition
raises the hard assertion failure and the metadata-injection stage never
runs; and whenever acquisition succeeds, the shortHash it returns is exactly
that first token. -/
theorem c6_first_token (opts : Options) (env : MainEnv) (m g : String)
    (rest : List String)
    (hc : acquireCmdsOk opts env.acquire = true)
    (hgr : env.acquire.globResult = [m])
    (hpre : "dl-fldigi-".data.isPrefixOf (pyBasename m).data = true)
    (hsuf : ".tar.gz".data.isSuffixOf (pyBasename m).data = true)
    (hl : env.acquire.logCmdOk = true)
    (ht : pySplitTokens (pyStrip env.acquire.logOutput) = g :: rest) :
    (g.length ≠ 7 →
      get_orig_tar opts env.acquire = Except.error Err.assertFailed ∧
      (main opts env).ranInject = false) ∧
    (∀ v h, get_orig_tar opts env.acquire = Except.ok (v, h) → h = g) := by
  simp only [acquireCmdsOk, Bool.and_eq_true, Bool.not_eq_true'] at hc
  obtain ⟨⟨⟨⟨⟨⟨c1, c2⟩, c3⟩, c4⟩, c5⟩, c6⟩, c7⟩ := hc
  have hred : get_orig_tar opts env.acquire =
      (if g.length = 7 then
        (if !env.acquire.copyOk then Except.error Err.osError
         else if !env.acquire.rmTmpOk then Except.error Err.osError
         else Except.ok (versionOfDistname (pyBasename m), g))
       else Except.error Err.assertFailed) := by
    unfold get_orig_tar
    rw [if_neg (by simp [c1])]
    rw [if_neg (by simp [c2])]
    rw [if_neg (by simp [c3])]
    rw [if_neg (by simp [c4])]
    rw [if_neg (by simp [c5])]
    rw [if_neg (by simp [c6])]
    rw [if_neg (by simp [c7])]
    rw [hgr]
    simp only [hpre, hsuf, hl, ht, Bool.not_true, Bool.false_eq_true, if_false]
  constructor
  · intro hlen
    refine ⟨by rw [hred, if_neg hlen], ?_⟩
    cases hn : env.nullOk with
    | false => simp [main, hn]
    | true =>
      cases hs : (setup_build_dir opts env.setup env.preDir).err with
      | some e => simp [main, hn, hs]
      | none => simp [main, hn, hs, buildPhase, hred, hlen]
  · intro v h heq
    rw [hred] at heq
    by_cases hlen : g.length = 7
    · rw [if_pos hlen] at heq
      split at heq; · cases heq
      split at heq; · cases heq
      cases heq; rfl
    · rw [if_neg hlen] at heq; cases heq

/-- Witness for c6_first_token at a run whose captured log line starts with
the three-character token abc: acquisition fails and injection never runs. -/
theorem c6_witness :
    get_orig_tar optsBin envShortToken.acquire = Except.error Err.assertFailed ∧
    (main optsBin envShortToken).ranInject = false :=
  (c6_first_token optsBin envShortToken
      "/home/builder/debian_build/git-tmp/dl-fldigi-1.2.3.tar.gz"
      "abc" ["bad", "format"] rfl rfl rfl rfl rfl rfl).1 (by decide)

/-- Witness for c4_amended at a glob-mismatch run whose cleanup succeeds. -/
theorem c4_witness :
    (main optsBin envGlobEmptyCleanOk).acquireErr = some Err.artifactMismatch ∧
    (main optsBin envGlobEmptyCleanOk).ranInject = false ∧
    (main optsBin envGlobEmptyCleanOk).ranBuild = false ∧
    (main optsBin envGlobEmptyCleanOk).ranCollect = false ∧
    (main optsBin envGlobEmptyCleanOk).cleanupPhaseRan = true ∧
    (main optsBin envGlobEmptyCleanOk).exitCode = 1 ∧
    ((main optsBin envGlobEmptyCleanOk).cleanupRaised = false →
      (main optsBin envGlobEmptyCleanOk).dirExists = false) :=
  c4_amended optsBin envGlobEmptyCleanOk rfl rfl rfl (by decide)

end Debian
